import Mathlib

/-!
Verification of the TrainSimulation repository.

Shallow embedding of the core logic of `simulation.py` (class
`TrainSimulation`), `TrainSimulation_Code/pid.py` (classes `PIDController`
and `TrainSpeedController`) and `TrainSimulation_Code/evaluate.py`
(class `EvaluationMetrics`).

Modelling conventions:
* Python floats are modelled by exact rationals (ℚ).
* The operating-condition strings of `simulation.py` are modelled by the
  inductive type `Status`:
    "正常运行：牵引"  ↦ Status.Traction
    "正常运行：惰行"  ↦ Status.Coasting
    "正常运行：制动"  ↦ Status.Braking
    "ATP紧急制动"     ↦ Status.EmergencyBraking
    "紧急制动罚时"    ↦ Status.PenaltyDelay
    "停站"            ↦ Status.StationStop
  These six strings are the only values ever assigned to `self.status`
  anywhere in the repository (simulation.py and gui.py).
* The four interpolation tables loaded by `load_data` from Excel files are
  runtime data, not code; they are modelled as function-valued parameters
  (structure `Curves`).  The ceiling-speed lookup is `ℚ → Option ℚ`: the
  value `none` models the lookup raising an exception inside the
  `try:`/`except:` block of `TrainSimulation.update` — on that path the
  Python code returns `{"error": ...}` with every mutation made before the
  raise (in particular `self.time += dt`, line 130) left committed.
* Pure I/O (the data sender, csv logging, log messages) is omitted: it
  never changes the fields of the simulation object.
-/

inductive Status where
  | Traction
  | Coasting
  | Braking
  | EmergencyBraking
  | PenaltyDelay
  | StationStop
deriving DecidableEq

inductive UpdateResult where
  | ok
  | error
deriving DecidableEq

/-- The four interpolation curves loaded by `TrainSimulation.load_data`.
`ceiling_speed_interp` is fallible (see the module comment). -/
structure Curves where
  target_speed_interp : ℚ → ℚ
  ceiling_speed_interp : ℚ → Option ℚ
  brake_acc_interp : ℚ → ℚ
  traction_acc_interp : ℚ → ℚ

/-- The mutable state of the Python class `TrainSimulation`
(fields assigned in `reset` and in `__init__`). -/
structure TrainSimulation where
  time : ℚ
  position : ℚ
  speed : ℚ
  acceleration : ℚ
  traction_acc : ℚ
  brake_acc : ℚ
  resistance_acc : ℚ
  status : Status
  emergency_brake_start : ℚ
  stop_start : ℚ
  actual_time : List ℚ
  number_1 : List ℕ
  actual_position : List ℚ
  number_2 : List ℕ
  speed_zero_counter : ℕ
  position_counter : ℕ
deriving DecidableEq

/-- `TrainSimulation.reset` (simulation.py lines 41-52); the list fields and
counters are initialised in `__init__`. -/
def TrainSimulation.reset : TrainSimulation where
  time := 0
  position := 21604.2803
  speed := 0
  acceleration := 0
  traction_acc := 0
  brake_acc := 0
  resistance_acc := 0
  status := .Coasting
  emergency_brake_start := 0
  stop_start := 0
  actual_time := []
  number_1 := []
  actual_position := []
  number_2 := []
  speed_zero_counter := 0
  position_counter := 0

/-- `TrainSimulation.get_resistance` (simulation.py lines 123-126):
Davis resistance, always returned negated. -/
def get_resistance (speed_kmh : ℚ) : ℚ :=
  -((2.03 + 0.062 * speed_kmh + 0.0018 * speed_kmh ^ 2) * 9.81 / 1000)

/-- `TrainSimulation.shanhou` (simulation.py lines 264-292): trapezoidal
integration of speed and position, followed by the position-marker and
speed-zero bookkeeping.  The Python `for i, pos in enumerate([22878.32,
24275.31])` loop is unrolled into its two iterations; `position_counter`
is re-read after the first iteration, exactly as in the source. -/
def TrainSimulation.shanhou (s : TrainSimulation) (dt : ℚ) : TrainSimulation :=
  let old_speed := s.speed
  let new_speed := max 0 (old_speed + s.acceleration * dt)
  let s := { s with speed := new_speed,
                    position := s.position + (old_speed + new_speed) * dt / 2 }
  let s :=
    if s.position_counter ≤ 0 ∧ 22878.32 ≤ s.position then
      { s with position_counter := s.position_counter + 1,
               actual_time := s.actual_time ++ [s.time],
               number_1 := s.number_1 ++ [s.position_counter + 1] }
    else s
  let s :=
    if s.position_counter ≤ 1 ∧ 24275.31 ≤ s.position then
      { s with position_counter := s.position_counter + 1,
               actual_time := s.actual_time ++ [s.time],
               number_1 := s.number_1 ++ [s.position_counter + 1] }
    else s
  if 0 < old_speed ∧ s.speed = 0 ∧ s.speed_zero_counter < 2 then
    { s with speed_zero_counter := s.speed_zero_counter + 1,
             actual_position := s.actual_position ++ [s.position],
             number_2 := s.number_2 ++ [s.speed_zero_counter + 1] }
  else s

/-- `TrainSimulation.check_station_stop` (simulation.py lines 296-298). -/
def TrainSimulation.check_station_stop (s : TrainSimulation) : Bool :=
  (22873.32 ≤ s.position ∧ s.position ≤ 22883.32) ∨
  (24270.31 ≤ s.position ∧ s.position ≤ 24280.31)

/-- The "正常运行更新" (normal-run) tail of `TrainSimulation.update`
(simulation.py lines 231-258), reached by falling through the station
check.  `self.time` has already been incremented by the caller. -/
def TrainSimulation.normal_run (s : TrainSimulation) (dt : ℚ)
    (control_acc : Option ℚ) : TrainSimulation × UpdateResult :=
  let speed_kmh := s.speed * 3.6
  let s := { s with resistance_acc := get_resistance speed_kmh }
  let s :=
    match control_acc with
    | some c => { s with acceleration := c }
    | none =>
      match s.status with
      | .Traction => { s with acceleration := s.traction_acc + s.resistance_acc }
      | .Braking =>
        if s.speed = 0 then { s with acceleration := 0 }
        else { s with acceleration := -s.brake_acc + s.resistance_acc }
      | _ =>
        if s.speed = 0 then { s with acceleration := 0 }
        else { s with acceleration := s.resistance_acc }
  (s.shanhou dt, .ok)

/-- `TrainSimulation.update` (simulation.py lines 128-262).
The body is wrapped in `try:`/`except:`; `self.time += dt` is the first
statement inside the `try:`.  The first operation that can raise is the
ceiling-speed lookup at line 134 (`self.get_ceiling_speed()`), modelled by
`cv.ceiling_speed_interp` returning `none`; on that path the `except:`
handler returns an error dict while every mutation already made stays
committed.  After the ATP check the `if/elif` chain re-reads
`self.status`, so an ATP trigger falls into the "ATP紧急制动" branch on
the same call. -/
def TrainSimulation.update (cv : Curves) (s : TrainSimulation) (dt : ℚ)
    (control_acc : Option ℚ) : TrainSimulation × UpdateResult :=
  let s := { s with time := s.time + dt }
  match cv.ceiling_speed_interp s.position with
  | none => (s, .error)
  | some ceiling =>
    let s :=
      if ceiling ≤ s.speed * 3.6 ∧ s.status ≠ .EmergencyBraking ∧
          s.status ≠ .PenaltyDelay then
        { s with status := .EmergencyBraking }
      else s
    match s.status with
    | .EmergencyBraking =>
      if 0 < s.speed then
        let speed_kmh := s.speed * 3.6
        let s := { s with resistance_acc := get_resistance speed_kmh,
                          traction_acc := 0,
                          acceleration := -1.1 }
        (s.shanhou dt, .ok)
      else
        let s := { s with status := .PenaltyDelay, speed := 0,
                          acceleration := 0, brake_acc := 0, traction_acc := 0,
                          emergency_brake_start := s.time }
        (s.shanhou dt, .ok)
    | .PenaltyDelay =>
      if 5 ≤ s.time - s.emergency_brake_start then
        (({ s with status := .Coasting }).shanhou dt, .ok)
      else
        (s.shanhou dt, .ok)
    | .StationStop =>
      if 23.5 ≤ s.time - s.stop_start then
        (({ s with position := 22883.33, status := .Coasting }).shanhou dt, .ok)
      else
        (s.shanhou dt, .ok)
    | _ =>
      if s.check_station_stop then
        if 24270.31 ≤ s.position ∧ s.position ≤ 24280.31 then
          let s := { s with status := .StationStop, speed := 0,
                            acceleration := 0, brake_acc := 0, traction_acc := 0 }
          (s.shanhou dt, .ok)
        else if s.speed * 3.6 ≤ 3.6 then
          let s := { s with status := .StationStop, speed := 0,
                            acceleration := 0, brake_acc := 0, traction_acc := 0,
                            stop_start := s.time }
          (s.shanhou dt, .ok)
        else
          s.normal_run dt control_acc
      else
        s.normal_run dt control_acc

/-- `TrainSimulation.set_traction_acc` (simulation.py lines 337-342). -/
def TrainSimulation.set_traction_acc (cv : Curves) (s : TrainSimulation)
    (value : ℚ) : TrainSimulation :=
  if s.status ≠ .Traction then s
  else
    let speed_kmh := s.speed * 3.6
    let max_traction := cv.traction_acc_interp speed_kmh
    { s with traction_acc := max 0 (min value max_traction) }

/-- `TrainSimulation.set_brake_acc` (simulation.py lines 344-349).
Note the negation: the brake curve stores signed (negative) accelerations,
so the upper clamp bound is `-max_brake`. -/
def TrainSimulation.set_brake_acc (cv : Curves) (s : TrainSimulation)
    (value : ℚ) : TrainSimulation :=
  if s.status ≠ .Braking then s
  else
    let speed_kmh := s.speed * 3.6
    let max_brake := cv.brake_acc_interp speed_kmh
    { s with brake_acc := max 0 (min value (-max_brake)) }

/-- `EvaluationMetrics.calculate_comfort_level` (evaluate.py lines 24-35). -/
def calculate_comfort_level (acceleration : ℚ) : ℕ × String :=
  let abs_acc := |acceleration|
  if abs_acc ≤ 0.28 then (1, "极舒适")
  else if abs_acc ≤ 1.23 then (2, "舒适")
  else if abs_acc ≤ 2.12 then (3, "不舒适")
  else (4, "无法忍受")

/-- The mutable state of the Python class `PIDController` (pid.py). -/
structure PIDController where
  kp : ℚ
  ki : ℚ
  kd : ℚ
  output_limits : Option (ℚ × ℚ)
  sample_time : ℚ
  anti_windup : Bool
  setpoint : ℚ
  last_error : ℚ
  integral : ℚ
deriving DecidableEq

/-- `PIDController.clamp` (pid.py lines 44-50). -/
def PIDController.clamp (c : PIDController) (value : ℚ) : ℚ :=
  match c.output_limits with
  | none => value
  | some (lower, upper) => max lower (min value upper)

/-- `PIDController.compute` (pid.py lines 52-107), with `dt` passed
explicitly.  The integral is only updated when `ki > 0`; anti-windup
clamps the integral itself to the output limits (the Python condition is
`self.anti_windup and self.output_limits is not None`). -/
def PIDController.compute (c : PIDController) (setpoint measurement dt : ℚ) :
    PIDController × ℚ :=
  let error := setpoint - measurement
  let P := c.kp * error
  let c :=
    if 0 < c.ki then
      let potential_integral := c.integral + 0.5 * c.ki * (error + c.last_error) * dt
      match c.output_limits with
      | some (lower, upper) =>
        if c.anti_windup then
          { c with integral := max lower (min potential_integral upper) }
        else
          { c with integral := potential_integral }
      | none => { c with integral := potential_integral }
    else c
  let I := c.integral
  let D := if 0 < c.kd ∧ 0 < dt then c.kd * (error - c.last_error) / dt else 0
  let output := c.clamp (P + I + D)
  ({ c with last_error := error }, output)

/-- `np.sign` restricted to the rationals. -/
def npSign (x : ℚ) : ℚ :=
  if 0 < x then 1 else if x < 0 then -1 else 0

/-- The mutable state of the Python class `TrainSpeedController` (pid.py
lines 113-130). -/
structure TrainSpeedController where
  speed_pid : PIDController
  last_acc : ℚ
  max_jerk : ℚ
deriving DecidableEq

/-- `TrainSpeedController.compute_control` (pid.py lines 138-175):
km/h → m/s conversion, raw PID output, jerk limiting of the change
relative to `last_acc`, and update of `last_acc` to the returned value. -/
def TrainSpeedController.compute_control (c : TrainSpeedController)
    (target_speed current_speed dt : ℚ) : TrainSpeedController × ℚ :=
  let target_speed_ms := target_speed / 3.6
  let current_speed_ms := current_speed / 3.6
  let pidres := c.speed_pid.compute target_speed_ms current_speed_ms dt
  let raw_acc := pidres.2
  let acc_change := raw_acc - c.last_acc
  let max_change := c.max_jerk * dt
  let acc_change :=
    if max_change < |acc_change| then max_change * npSign acc_change
    else acc_change
  let new_acc := c.last_acc + acc_change
  ({ c with speed_pid := pidres.1, last_acc := new_acc }, new_acc)

/-! Concrete curve tables and states used by witnesses and counterexamples. -/

def cvW : Curves where
  target_speed_interp := fun _ => 60
  ceiling_speed_interp := fun _ => some 80
  brake_acc_interp := fun _ => -1
  traction_acc_interp := fun _ => 0.8

def cvFault : Curves where
  target_speed_interp := fun _ => 60
  ceiling_speed_interp := fun _ => none
  brake_acc_interp := fun _ => -1
  traction_acc_interp := fun _ => 0.8

def sOver : TrainSimulation :=
  { TrainSimulation.reset with speed := 30, status := .Coasting }

def sPen : TrainSimulation :=
  { TrainSimulation.reset with status := .PenaltyDelay, time := 10,
                                emergency_brake_start := 8 }

def sTermFast : TrainSimulation :=
  { TrainSimulation.reset with position := 24275.31, speed := 2, status := .Coasting }

def sBand : TrainSimulation :=
  { TrainSimulation.reset with position := 22878.32, speed := 0.5, status := .Braking,
                                time := 50 }

def sTermSlow : TrainSimulation :=
  { TrainSimulation.reset with time := 200, position := 24275.31, speed := 0.5,
                                status := .Coasting, stop_start := 100 }

def sTrac : TrainSimulation :=
  { TrainSimulation.reset with status := .Traction, traction_acc := 0.3 }

def pidW : PIDController where
  kp := 0.8
  ki := 0.2
  kd := 0.3
  output_limits := some (-1.1, 1.1)
  sample_time := 0.1
  anti_windup := true
  setpoint := 0
  last_error := 0
  integral := 0

def ctrlW : TrainSpeedController where
  speed_pid := pidW
  last_acc := 0
  max_jerk := 0.75


/-! Helper lemmas about the integrator and the normal-run tail. -/

theorem shanhou_speed_eq (s : TrainSimulation) (dt : ℚ) :
    (s.shanhou dt).speed = max 0 (s.speed + s.acceleration * dt) := by
  simp only [TrainSimulation.shanhou]
  split_ifs <;> rfl

theorem shanhou_speed_nonneg (s : TrainSimulation) (dt : ℚ) :
    0 ≤ (s.shanhou dt).speed := by
  rw [shanhou_speed_eq]
  exact le_max_left _ _

theorem shanhou_position_eq (s : TrainSimulation) (dt : ℚ) :
    (s.shanhou dt).position
      = s.position + (s.speed + max 0 (s.speed + s.acceleration * dt)) * dt / 2 := by
  simp only [TrainSimulation.shanhou]
  split_ifs <;> rfl

theorem shanhou_status (s : TrainSimulation) (dt : ℚ) :
    (s.shanhou dt).status = s.status := by
  simp only [TrainSimulation.shanhou]
  split_ifs <;> rfl

theorem shanhou_acceleration (s : TrainSimulation) (dt : ℚ) :
    (s.shanhou dt).acceleration = s.acceleration := by
  simp only [TrainSimulation.shanhou]
  split_ifs <;> rfl

theorem shanhou_traction_acc (s : TrainSimulation) (dt : ℚ) :
    (s.shanhou dt).traction_acc = s.traction_acc := by
  simp only [TrainSimulation.shanhou]
  split_ifs <;> rfl

theorem shanhou_brake_acc (s : TrainSimulation) (dt : ℚ) :
    (s.shanhou dt).brake_acc = s.brake_acc := by
  simp only [TrainSimulation.shanhou]
  split_ifs <;> rfl

theorem shanhou_resistance_acc (s : TrainSimulation) (dt : ℚ) :
    (s.shanhou dt).resistance_acc = s.resistance_acc := by
  simp only [TrainSimulation.shanhou]
  split_ifs <;> rfl

theorem shanhou_time (s : TrainSimulation) (dt : ℚ) :
    (s.shanhou dt).time = s.time := by
  simp only [TrainSimulation.shanhou]
  split_ifs <;> rfl

theorem shanhou_stop_start (s : TrainSimulation) (dt : ℚ) :
    (s.shanhou dt).stop_start = s.stop_start := by
  simp only [TrainSimulation.shanhou]
  split_ifs <;> rfl

theorem shanhou_emergency_brake_start (s : TrainSimulation) (dt : ℚ) :
    (s.shanhou dt).emergency_brake_start = s.emergency_brake_start := by
  simp only [TrainSimulation.shanhou]
  split_ifs <;> rfl

theorem normal_run_status (s : TrainSimulation) (dt : ℚ) (c : Option ℚ) :
    (s.normal_run dt c).1.status = s.status := by
  simp only [TrainSimulation.normal_run]
  repeat' split
  all_goals simp [shanhou_status]


/-! The claims. -/

/-- Claim C1 (confirmed): on every `update` tick, if the speed in km/h is at
least the ceiling speed looked up at the current position (a positive ceiling,
as all ATP data is) and the condition is neither EmergencyBraking nor
PenaltyDelay, the condition is forced to EmergencyBraking on that same tick
with the fixed deceleration -1.1 and traction cleared, and the outcome is
independent of the automatic control acceleration supplied for the tick; the
check precedes every other state-machine rule (the quantification over an
arbitrary prior status other than EmergencyBraking/PenaltyDelay, position and
speed shows no other rule fires first). -/
theorem atp_safety_override (cv : Curves) (s : TrainSimulation) (dt : ℚ)
    (control_acc : Option ℚ) (ceiling : ℚ)
    (hceil : cv.ceiling_speed_interp s.position = some ceiling)
    (hpos : 0 < ceiling)
    (hover : ceiling ≤ s.speed * 3.6)
    (h1 : s.status ≠ .EmergencyBraking)
    (h2 : s.status ≠ .PenaltyDelay) :
    (s.update cv dt control_acc).1.status = .EmergencyBraking ∧
    (s.update cv dt control_acc).1.acceleration = -1.1 ∧
    (s.update cv dt control_acc).1.traction_acc = 0 ∧
    s.update cv dt control_acc = s.update cv dt none := by
  have hspeed : 0 < s.speed := by nlinarith
  have key : ∀ c2 : Option ℚ, s.update cv dt c2 =
      (({ s with time := s.time + dt, status := .EmergencyBraking,
                 resistance_acc := get_resistance (s.speed * 3.6),
                 traction_acc := 0, acceleration := -1.1 }).shanhou dt, .ok) := by
    intro c2
    simp only [TrainSimulation.update, hceil]
    rw [if_pos ⟨hover, h1, h2⟩]
    simp only [if_pos hspeed]
  rw [key control_acc, key none]
  simp [shanhou_status, shanhou_acceleration, shanhou_traction_acc]

/-- Witness for C1: a coasting train at 108 km/h under an 80 km/h ceiling. -/
theorem atp_safety_override_witness :
    (sOver.update cvW 1 (some 0.5)).1.status = .EmergencyBraking ∧
    (sOver.update cvW 1 (some 0.5)).1.acceleration = -1.1 ∧
    (sOver.update cvW 1 (some 0.5)).1.traction_acc = 0 ∧
    sOver.update cvW 1 (some 0.5) = sOver.update cvW 1 none :=
  atp_safety_override cvW sOver 1 (some 0.5) 80 rfl (by norm_num)
    (by norm_num [sOver, TrainSimulation.reset]) (by decide) (by decide)

/-- Claim C2 (code-bug evidence): a coasting train entering the terminal band
(position 24275.31) becomes StationStop, but there is no Terminated state and
the tail is not idempotent: the terminal entry never refreshes `stop_start`,
so on the very next tick the stale dwell test fires, the position is snapped
back to 22883.33 (the intermediate station) and the condition returns to
Coasting while time keeps advancing — despite the code reporting "仿真结束，
列车到终点站，驾驶任务完成" (simulation over, task complete) on entry. -/
theorem terminal_stop_is_not_terminal :
    (sTermSlow.update cvW 1 none).1.status = .StationStop ∧
    ((sTermSlow.update cvW 1 none).1.update cvW 1 none).1.status = .Coasting ∧
    ((sTermSlow.update cvW 1 none).1.update cvW 1 none).1.position = 22883.33 ∧
    ((sTermSlow.update cvW 1 none).1.update cvW 1 none).1.time = sTermSlow.time + 2 := by
  norm_num [TrainSimulation.update, TrainSimulation.check_station_stop,
    TrainSimulation.shanhou, TrainSimulation.normal_run, TrainSimulation.reset,
    sTermSlow, cvW]

/-- Claim C3 counterexample: in the terminal band at 7.2 km/h — above any
small threshold, whether 1 km/h (claim) or 3.6 km/h (code) — the train does
not pass through: `update` forces StationStop regardless of speed. -/
theorem station_zone_counterexample :
    (24270.31 ≤ sTermFast.position ∧ sTermFast.position ≤ 24280.31) ∧
    1 < sTermFast.speed * 3.6 ∧ 3.6 < sTermFast.speed * 3.6 ∧
    sTermFast.status = .Coasting ∧
    (sTermFast.update cvW 1 none).1.status = .StationStop := by
  norm_num [TrainSimulation.update, TrainSimulation.check_station_stop,
    TrainSimulation.shanhou, TrainSimulation.normal_run, TrainSimulation.reset,
    sTermFast, cvW]

/-- Claim C3 (corrected): station-zone detection as the code implements it.
In a normal operating state with no ATP trigger: inside the terminal band
(24270.31-24280.31) the condition is forced to StationStop with speed,
acceleration and both commands zeroed regardless of speed, and the entry time
`stop_start` is NOT recorded; inside the intermediate band (22873.32-22883.32)
StationStop is entered exactly when speed ≤ 1 m/s, i.e. 3.6 km/h (not ≈1 km/h),
with the entry time recorded; above that threshold in the intermediate band the
train passes through with its condition unchanged. -/
theorem station_zone_detection (cv : Curves) (s : TrainSimulation) (dt : ℚ)
    (control_acc : Option ℚ) (ceiling : ℚ)
    (hceil : cv.ceiling_speed_interp s.position = some ceiling)
    (hnoatp : s.speed * 3.6 < ceiling)
    (hst : s.status = .Traction ∨ s.status = .Coasting ∨ s.status = .Braking) :
    ((24270.31 ≤ s.position ∧ s.position ≤ 24280.31) →
      (s.update cv dt control_acc).1.status = .StationStop ∧
      (s.update cv dt control_acc).1.speed = 0 ∧
      (s.update cv dt control_acc).1.acceleration = 0 ∧
      (s.update cv dt control_acc).1.traction_acc = 0 ∧
      (s.update cv dt control_acc).1.brake_acc = 0 ∧
      (s.update cv dt control_acc).1.stop_start = s.stop_start) ∧
    ((22873.32 ≤ s.position ∧ s.position ≤ 22883.32) → s.speed * 3.6 ≤ 3.6 →
      (s.update cv dt control_acc).1.status = .StationStop ∧
      (s.update cv dt control_acc).1.speed = 0 ∧
      (s.update cv dt control_acc).1.acceleration = 0 ∧
      (s.update cv dt control_acc).1.traction_acc = 0 ∧
      (s.update cv dt control_acc).1.brake_acc = 0 ∧
      (s.update cv dt control_acc).1.stop_start = s.time + dt) ∧
    ((22873.32 ≤ s.position ∧ s.position ≤ 22883.32) → 3.6 < s.speed * 3.6 →
      (s.update cv dt control_acc).1.status = s.status) := by
  have hatp : ¬(ceiling ≤ s.speed * 3.6 ∧ s.status ≠ Status.EmergencyBraking ∧
      s.status ≠ Status.PenaltyDelay) := fun h => absurd h.1 (not_le.mpr hnoatp)
  refine ⟨fun hterm => ?_, fun hband hslow => ?_, fun hband hfast => ?_⟩
  · have hcs : s.check_station_stop = true := by
      simp only [TrainSimulation.check_station_stop, decide_eq_true_eq]
      exact Or.inr hterm
    have hred : s.update cv dt control_acc =
        (({ s with time := s.time + dt, status := .StationStop, speed := 0,
                   acceleration := 0, brake_acc := 0,
                   traction_acc := 0 }).shanhou dt, .ok) := by
      simp only [TrainSimulation.update, hceil]
      rw [if_neg hatp]
      rcases hst with h | h | h <;> rw [h] <;>
        · simp only [if_pos hterm]
          split_ifs with h1
          · rfl
          · refine absurd ?_ h1
            simp only [TrainSimulation.check_station_stop, decide_eq_true_eq]
            exact Or.inr hterm
    rw [hred]
    simp [shanhou_status, shanhou_speed_eq, shanhou_acceleration,
      shanhou_traction_acc, shanhou_brake_acc, shanhou_stop_start]
  · have hcs : s.check_station_stop = true := by
      simp only [TrainSimulation.check_station_stop, decide_eq_true_eq]
      exact Or.inl hband
    have hterm : ¬(24270.31 ≤ s.position ∧ s.position ≤ 24280.31) := by
      rintro ⟨h1, -⟩
      have := hband.2
      norm_num at h1 this
      linarith
    have hred : s.update cv dt control_acc =
        (({ s with time := s.time + dt, status := .StationStop, speed := 0,
                   acceleration := 0, brake_acc := 0, traction_acc := 0,
                   stop_start := s.time + dt }).shanhou dt, .ok) := by
      simp only [TrainSimulation.update, hceil]
      rw [if_neg hatp]
      rcases hst with h | h | h <;> rw [h] <;>
        · simp only [if_neg hterm, if_pos hslow]
          split_ifs with h1
          · rfl
          · refine absurd ?_ h1
            simp only [TrainSimulation.check_station_stop, decide_eq_true_eq]
            exact Or.inl hband
    rw [hred]
    simp [shanhou_status, shanhou_speed_eq, shanhou_acceleration,
      shanhou_traction_acc, shanhou_brake_acc, shanhou_stop_start]
  · have hcs : s.check_station_stop = true := by
      simp only [TrainSimulation.check_station_stop, decide_eq_true_eq]
      exact Or.inl hband
    have hterm : ¬(24270.31 ≤ s.position ∧ s.position ≤ 24280.31) := by
      rintro ⟨h1, -⟩
      have := hband.2
      norm_num at h1 this
      linarith
    have hred : s.update cv dt control_acc =
        ({ s with time := s.time + dt }).normal_run dt control_acc := by
      simp only [TrainSimulation.update, hceil]
      rw [if_neg hatp]
      rcases hst with h | h | h <;> rw [h] <;>
        · simp only [if_neg hterm, if_neg (not_le.mpr hfast)]
          split_ifs with h1
          · rfl
          · rfl
    rw [hred, normal_run_status]

/-- Witness for C3: a braking train at 1.8 km/h inside the intermediate band
stops with its entry time recorded; a coasting train at 7.2 km/h in the
terminal band stops as well. -/
theorem station_zone_detection_witness :
    ((sBand.update cvW 1 none).1.status = .StationStop ∧
      (sBand.update cvW 1 none).1.speed = 0 ∧
      (sBand.update cvW 1 none).1.acceleration = 0 ∧
      (sBand.update cvW 1 none).1.traction_acc = 0 ∧
      (sBand.update cvW 1 none).1.brake_acc = 0 ∧
      (sBand.update cvW 1 none).1.stop_start = sBand.time + 1) ∧
    (sTermFast.update cvW 1 none).1.status = .StationStop := by
  constructor
  · exact (station_zone_detection cvW sBand 1 none 80 rfl
      (by norm_num [sBand, TrainSimulation.reset]) (Or.inr (Or.inr rfl))).2.1
      (by norm_num [sBand, TrainSimulation.reset])
      (by norm_num [sBand, TrainSimulation.reset])
  · exact ((station_zone_detection cvW sTermFast 1 none 80 rfl
      (by norm_num [sTermFast, TrainSimulation.reset]) (Or.inr (Or.inl rfl))).1
      (by norm_num [sTermFast, TrainSimulation.reset])).1

/-- Claim C4 counterexample: when the ceiling lookup faults, `update` returns
an explicit error result but the state is not what it was before the call —
the simulation time has already been advanced. -/
theorem fault_mutates_time :
    (TrainSimulation.reset.update cvFault 1 none).2 = .error ∧
    (TrainSimulation.reset.update cvFault 1 none).1.time ≠ TrainSimulation.reset.time := by
  norm_num [TrainSimulation.update, TrainSimulation.reset, cvFault]

/-- Claim C4 (corrected): a tick that ends in a fault returns an explicit
error result, but `update` is not atomic: `self.time += dt` is the first
statement inside the `try:` block, so the committed state after the fault is
exactly the pre-call state with time advanced by dt — mutations made before
the fault point are kept, there is no compute-then-commit. -/
theorem fault_keeps_partial_mutation (cv : Curves) (s : TrainSimulation) (dt : ℚ)
    (control_acc : Option ℚ)
    (hfault : cv.ceiling_speed_interp s.position = none) :
    s.update cv dt control_acc = ({ s with time := s.time + dt }, .error) := by
  simp only [TrainSimulation.update, hfault]

/-- Witness for C4: the reset state under everywhere-faulting ceiling data. -/
theorem fault_keeps_partial_mutation_witness :
    TrainSimulation.reset.update cvFault 1 none
      = ({ TrainSimulation.reset with time := TrainSimulation.reset.time + 1 }, .error) :=
  fault_keeps_partial_mutation cvFault TrainSimulation.reset 1 none rfl

/-- Claim C5 (confirmed): the integrator `shanhou` sets the new speed to
max(0, speed + acceleration·dt), so the speed is nonnegative after the tick
(and `update` preserves speed ≥ 0 along any tick sequence), and with dt ≥ 0
the position update position + (speed + speed')·dt/2 never decreases the
position. -/
theorem integration_invariant (cv : Curves) (s : TrainSimulation) (dt : ℚ)
    (control_acc : Option ℚ) (hdt : 0 ≤ dt) (hsp : 0 ≤ s.speed) :
    (s.shanhou dt).speed = max 0 (s.speed + s.acceleration * dt) ∧
    0 ≤ (s.shanhou dt).speed ∧
    s.position ≤ (s.shanhou dt).position ∧
    0 ≤ (s.update cv dt control_acc).1.speed := by
  refine ⟨shanhou_speed_eq s dt, shanhou_speed_nonneg s dt, ?_, ?_⟩
  · rw [shanhou_position_eq]
    have h1 : 0 ≤ max 0 (s.speed + s.acceleration * dt) := le_max_left _ _
    nlinarith
  · rcases h : cv.ceiling_speed_interp s.position with _ | ceiling
    · simp only [TrainSimulation.update, h]
      exact hsp
    · simp only [TrainSimulation.update, h, TrainSimulation.normal_run]
      repeat' split
      all_goals exact shanhou_speed_nonneg _ _

/-- Witness for C5 at a concrete coasting state with dt = 1. -/
theorem integration_invariant_witness :
    (sOver.shanhou 1).speed = max 0 (sOver.speed + sOver.acceleration * 1) ∧
    0 ≤ (sOver.shanhou 1).speed ∧
    sOver.position ≤ (sOver.shanhou 1).position ∧
    0 ≤ (sOver.update cvW 1 none).1.speed :=
  integration_invariant cvW sOver 1 none (by norm_num)
    (by norm_num [sOver, TrainSimulation.reset])

/-- Claim C6 (confirmed): PenaltyDelay entry is recorded when emergency
braking reaches speed 0 (entry time = the already-incremented tick time, with
acceleration zeroed); from entry, while the elapsed time since
`emergency_brake_start` is below 5.0 s the condition remains PenaltyDelay with
the (zero) acceleration unchanged, and on the first tick with elapsed ≥ 5.0 s
the condition becomes Coasting — never Traction. -/
theorem penalty_delay_dwell (cv : Curves) (s : TrainSimulation) (dt : ℚ)
    (control_acc : Option ℚ) (ceiling : ℚ)
    (hceil : cv.ceiling_speed_interp s.position = some ceiling) :
    (s.status = .EmergencyBraking → s.speed ≤ 0 →
      (s.update cv dt control_acc).1.status = .PenaltyDelay ∧
      (s.update cv dt control_acc).1.emergency_brake_start = s.time + dt ∧
      (s.update cv dt control_acc).1.acceleration = 0) ∧
    (s.status = .PenaltyDelay →
      (s.time + dt - s.emergency_brake_start < 5 →
        (s.update cv dt control_acc).1.status = .PenaltyDelay ∧
        (s.update cv dt control_acc).1.acceleration = s.acceleration) ∧
      (5 ≤ s.time + dt - s.emergency_brake_start →
        (s.update cv dt control_acc).1.status = .Coasting ∧
        (s.update cv dt control_acc).1.acceleration = s.acceleration)) := by
  constructor
  · intro hst hsp
    have hred : s.update cv dt control_acc =
        (({ s with time := s.time + dt, status := .PenaltyDelay, speed := 0,
                   acceleration := 0, brake_acc := 0, traction_acc := 0,
                   emergency_brake_start := s.time + dt }).shanhou dt, .ok) := by
      simp only [TrainSimulation.update, hceil]
      rw [if_neg (fun h => h.2.1 hst)]
      rw [hst]
      simp only [if_neg (not_lt.mpr hsp)]
    rw [hred]
    simp [shanhou_status, shanhou_acceleration, shanhou_emergency_brake_start]
  · intro hst
    constructor
    · intro hlt
      have hred : s.update cv dt control_acc =
          (({ s with time := s.time + dt }).shanhou dt, .ok) := by
        simp only [TrainSimulation.update, hceil]
        rw [if_neg (fun h => h.2.2 hst)]
        rw [hst]
        simp only [if_neg (not_le.mpr hlt)]
      rw [hred]
      simp [shanhou_status, shanhou_acceleration, hst]
    · intro hge
      have hred : s.update cv dt control_acc =
          (({ s with time := s.time + dt, status := .Coasting }).shanhou dt, .ok) := by
        simp only [TrainSimulation.update, hceil]
        rw [if_neg (fun h => h.2.2 hst)]
        rw [hst]
        simp only [if_pos hge]
      rw [hred]
      simp [shanhou_status, shanhou_acceleration]

/-- Witness for C6: elapsed 3 s stays PenaltyDelay, elapsed 6 s leaves to
Coasting. -/
theorem penalty_delay_dwell_witness :
    (sPen.update cvW 1 none).1.status = .PenaltyDelay ∧
    (sPen.update cvW 1 none).1.acceleration = sPen.acceleration ∧
    (sPen.update cvW 4 none).1.status = .Coasting :=
  ⟨((penalty_delay_dwell cvW sPen 1 none 80 rfl).2 rfl).1
      (by norm_num [sPen, TrainSimulation.reset]) |>.1,
   ((penalty_delay_dwell cvW sPen 1 none 80 rfl).2 rfl).1
      (by norm_num [sPen, TrainSimulation.reset]) |>.2,
   ((penalty_delay_dwell cvW sPen 4 none 80 rfl).2 rfl).2
      (by norm_num [sPen, TrainSimulation.reset]) |>.1⟩

/-- Claim C7 (confirmed): for consecutive `compute_control` outputs a0 (the
stored `last_acc`, which each call returns and re-stores) and a1, with dt ≥ 0,
|a1 - a0| ≤ maxJerk·dt; and when the raw PID output would move the output by
more than maxJerk·dt, the output moves by exactly maxJerk·dt in the requested
direction — for every controller state, hence independently of the P/I/D
gains. -/
theorem jerk_bound (c : TrainSpeedController) (target_speed current_speed dt : ℚ)
    (hdt : 0 ≤ dt) (hj : 0 ≤ c.max_jerk) :
    |(c.compute_control target_speed current_speed dt).2 - c.last_acc|
      ≤ c.max_jerk * dt ∧
    (c.compute_control target_speed current_speed dt).1.last_acc
      = (c.compute_control target_speed current_speed dt).2 ∧
    (c.max_jerk * dt <
        |(c.speed_pid.compute (target_speed / 3.6) (current_speed / 3.6) dt).2 - c.last_acc| →
      (c.compute_control target_speed current_speed dt).2 - c.last_acc
        = c.max_jerk * dt *
            npSign ((c.speed_pid.compute (target_speed / 3.6) (current_speed / 3.6) dt).2
              - c.last_acc)) := by
  have hmc : 0 ≤ c.max_jerk * dt := mul_nonneg hj hdt
  simp only [TrainSpeedController.compute_control]
  set raw := (c.speed_pid.compute (target_speed / 3.6) (current_speed / 3.6) dt).2 with hraw
  set ch := raw - c.last_acc with hch
  by_cases hcap : c.max_jerk * dt < |ch|
  · have hne : ch ≠ 0 := by
      intro h0
      rw [h0] at hcap
      simp at hcap
      exact absurd hcap (not_lt.mpr hmc)
    have hsign : |npSign ch| = 1 := by
      simp only [npSign]
      rcases lt_trichotomy 0 ch with h | h | h
      · simp [h]
      · exact absurd h.symm hne
      · rw [if_neg (by linarith), if_pos h]
        norm_num
    refine ⟨?_, trivial, ?_⟩
    · rw [if_pos hcap]
      have : c.last_acc + c.max_jerk * dt * npSign ch - c.last_acc
          = c.max_jerk * dt * npSign ch := by ring
      rw [this, abs_mul, hsign, mul_one, abs_of_nonneg hmc]
    · intro _
      rw [if_pos hcap]
      ring
  · refine ⟨?_, trivial, fun h => absurd h hcap⟩
    rw [if_neg hcap]
    have : c.last_acc + ch - c.last_acc = ch := by ring
    rw [this]
    exact not_lt.mp hcap

/-- Witness for C7: the default controller tuning asked for 50 km/h from
standstill with dt = 0.1 s. -/
theorem jerk_bound_witness :
    |(ctrlW.compute_control 50 0 0.1).2 - ctrlW.last_acc| ≤ ctrlW.max_jerk * 0.1 ∧
    (ctrlW.compute_control 50 0 0.1).1.last_acc = (ctrlW.compute_control 50 0 0.1).2 ∧
    (ctrlW.max_jerk * 0.1 <
        |(ctrlW.speed_pid.compute (50 / 3.6) (0 / 3.6) 0.1).2 - ctrlW.last_acc| →
      (ctrlW.compute_control 50 0 0.1).2 - ctrlW.last_acc
        = ctrlW.max_jerk * 0.1 *
            npSign ((ctrlW.speed_pid.compute (50 / 3.6) (0 / 3.6) 0.1).2
              - ctrlW.last_acc)) :=
  jerk_bound ctrlW 50 0 0.1 (by norm_num) (by norm_num [ctrlW])

/-- Claim C8 (confirmed): `set_traction_acc` changes only the stored traction
command and only while the condition is Traction, clamping the value to
[0, tractionCurve(speed_kmh)]; `set_brake_acc` changes only the stored brake
command and only while the condition is Braking, clamping to
[0, -brakeCurve(speed_kmh)] (the brake curve stores signed decelerations, so
the maximum brake at the current speed is the curve value negated); in any
other condition the whole state is returned unchanged, and the functions are
total — no error is raised. -/
theorem manual_command_contracts (cv : Curves) (s : TrainSimulation) (value : ℚ) :
    (s.status ≠ .Traction → s.set_traction_acc cv value = s) ∧
    (s.status = .Traction →
      s.set_traction_acc cv value
        = { s with traction_acc := max 0 (min value (cv.traction_acc_interp (s.speed * 3.6))) } ∧
      (0 ≤ cv.traction_acc_interp (s.speed * 3.6) →
        0 ≤ (s.set_traction_acc cv value).traction_acc ∧
        (s.set_traction_acc cv value).traction_acc ≤ cv.traction_acc_interp (s.speed * 3.6))) ∧
    (s.status ≠ .Braking → s.set_brake_acc cv value = s) ∧
    (s.status = .Braking →
      s.set_brake_acc cv value
        = { s with brake_acc := max 0 (min value (-(cv.brake_acc_interp (s.speed * 3.6)))) } ∧
      (0 ≤ -(cv.brake_acc_interp (s.speed * 3.6)) →
        0 ≤ (s.set_brake_acc cv value).brake_acc ∧
        (s.set_brake_acc cv value).brake_acc ≤ -(cv.brake_acc_interp (s.speed * 3.6)))) := by
  refine ⟨fun h => ?_, fun h => ⟨?_, fun hmax => ⟨?_, ?_⟩⟩, fun h => ?_,
    fun h => ⟨?_, fun hmax => ⟨?_, ?_⟩⟩⟩
  · simp [TrainSimulation.set_traction_acc, h]
  · simp [TrainSimulation.set_traction_acc, h]
  · simp [TrainSimulation.set_traction_acc, h]
  · simp only [TrainSimulation.set_traction_acc, h, ne_eq, not_true_eq_false, if_false]
    exact max_le hmax (min_le_right _ _)
  · simp [TrainSimulation.set_brake_acc, h]
  · simp [TrainSimulation.set_brake_acc, h]
  · simp [TrainSimulation.set_brake_acc, h]
  · simp only [TrainSimulation.set_brake_acc, h, ne_eq, not_true_eq_false, if_false]
    exact max_le hmax (min_le_right _ _)

/-- Witness for C8: in Traction the traction command is clamped; the brake
request in Traction is a silent no-op. -/
theorem manual_command_contracts_witness :
    sTrac.set_traction_acc cvW 5
      = { sTrac with traction_acc := max 0 (min 5 (cvW.traction_acc_interp (sTrac.speed * 3.6))) } ∧
    sTrac.set_brake_acc cvW 5 = sTrac :=
  ⟨((manual_command_contracts cvW sTrac 5).2.1 rfl).1,
   (manual_command_contracts cvW sTrac 5).2.2.1 (by decide)⟩

/-- Claim C9 (confirmed): `calculate_comfort_level` classifies by absolute
acceleration: class 1 ("very comfortable") iff |a| ≤ 0.28, class 2
("comfortable") iff 0.28 < |a| ≤ 1.23, class 3 ("uncomfortable") iff
1.23 < |a| ≤ 2.12, class 4 ("unbearable") iff |a| > 2.12; in particular 0.28
is very comfortable, 0.2801 comfortable, 1.2301 uncomfortable and 2.1201
unbearable. -/
theorem comfort_classification (a : ℚ) :
    ((calculate_comfort_level a).1 = 1 ↔ |a| ≤ 0.28) ∧
    ((calculate_comfort_level a).1 = 2 ↔ 0.28 < |a| ∧ |a| ≤ 1.23) ∧
    ((calculate_comfort_level a).1 = 3 ↔ 1.23 < |a| ∧ |a| ≤ 2.12) ∧
    ((calculate_comfort_level a).1 = 4 ↔ 2.12 < |a|) ∧
    calculate_comfort_level 0.28 = (1, "极舒适") ∧
    calculate_comfort_level 0.2801 = (2, "舒适") ∧
    calculate_comfort_level 1.2301 = (3, "不舒适") ∧
    calculate_comfort_level 2.1201 = (4, "无法忍受") := by
  have c1 : calculate_comfort_level 0.28 = (1, "极舒适") := by
    simp only [calculate_comfort_level]
    rw [abs_of_nonneg (by norm_num : (0:ℚ) ≤ 0.28)]
    norm_num
  have c2 : calculate_comfort_level 0.2801 = (2, "舒适") := by
    simp only [calculate_comfort_level]
    rw [abs_of_nonneg (by norm_num : (0:ℚ) ≤ 0.2801)]
    norm_num
  have c3 : calculate_comfort_level 1.2301 = (3, "不舒适") := by
    simp only [calculate_comfort_level]
    rw [abs_of_nonneg (by norm_num : (0:ℚ) ≤ 1.2301)]
    norm_num
  have c4 : calculate_comfort_level 2.1201 = (4, "无法忍受") := by
    simp only [calculate_comfort_level]
    rw [abs_of_nonneg (by norm_num : (0:ℚ) ≤ 2.1201)]
    norm_num
  refine ⟨?_, ?_, ?_, ?_, c1, c2, c3, c4⟩ <;>
  · simp only [calculate_comfort_level]
    split_ifs with h1 h2 h3 <;> norm_num <;> push_neg at * <;>
      first
        | (constructor <;> linarith)
        | linarith
        | (intro h; linarith)

/-- Claim C10 (confirmed): on a normal-state tick that is not diverted by the
ATP check or the station-zone check, a non-None `control_acc` becomes the
total acceleration exactly: the Davis resistance is computed and stored but
not added, the result is identical for any traction/brake capability curves
(they are not consulted), and the speed-0 guards of the Braking/Coasting
formulas are not applied (the speed integrates from `control_acc` even at
speed 0). -/
theorem auto_mode_bypass (cv : Curves) (s : TrainSimulation) (dt c : ℚ)
    (ceiling : ℚ)
    (hceil : cv.ceiling_speed_interp s.position = some ceiling)
    (hnoatp : s.speed * 3.6 < ceiling)
    (hst : s.status = .Traction ∨ s.status = .Coasting ∨ s.status = .Braking)
    (hterm : ¬(24270.31 ≤ s.position ∧ s.position ≤ 24280.31))
    (hfast : s.check_station_stop = true → 3.6 < s.speed * 3.6) :
    (s.update cv dt (some c)).1.acceleration = c ∧
    (s.update cv dt (some c)).1.resistance_acc = get_resistance (s.speed * 3.6) ∧
    (s.update cv dt (some c)).1.speed = max 0 (s.speed + c * dt) ∧
    (s.update cv dt (some c)).1.status = s.status ∧
    (∀ f g, s.update { cv with traction_acc_interp := f, brake_acc_interp := g } dt (some c)
        = s.update cv dt (some c)) := by
  have hatp : ¬(ceiling ≤ s.speed * 3.6 ∧ s.status ≠ Status.EmergencyBraking ∧
      s.status ≠ Status.PenaltyDelay) := fun h => absurd h.1 (not_le.mpr hnoatp)
  have key : ∀ cv2 : Curves, cv2.ceiling_speed_interp s.position = some ceiling →
      s.update cv2 dt (some c) =
        (({ s with time := s.time + dt,
                   resistance_acc := get_resistance (s.speed * 3.6),
                   acceleration := c }).shanhou dt, .ok) := by
    intro cv2 hceil2
    simp only [TrainSimulation.update, hceil2]
    rw [if_neg hatp]
    rcases hst with h | h | h <;> rw [h] <;>
      · simp only [TrainSimulation.normal_run]
        split_ifs with h1 h2
        · exact absurd (hfast (by
            refine Eq.trans ?_ h1
            simp only [TrainSimulation.check_station_stop])) (not_lt.mpr h2)
        · rfl
        · rfl
  refine ⟨?_, ?_, ?_, ?_, fun f g => ?_⟩
  · rw [key cv hceil]
    simp [shanhou_acceleration]
  · rw [key cv hceil]
    simp [shanhou_resistance_acc]
  · rw [key cv hceil]
    simp [shanhou_speed_eq]
  · rw [key cv hceil]
    simp [shanhou_status]
  · rw [key cv hceil, key { cv with traction_acc_interp := f, brake_acc_interp := g } hceil]

/-- Witness for C10: the reset state (speed 0, Coasting) driven with
control_acc = 0.7. -/
theorem auto_mode_bypass_witness :
    (TrainSimulation.reset.update cvW 1 (some 0.7)).1.acceleration = 0.7 ∧
    (TrainSimulation.reset.update cvW 1 (some 0.7)).1.resistance_acc
      = get_resistance (TrainSimulation.reset.speed * 3.6) ∧
    (TrainSimulation.reset.update cvW 1 (some 0.7)).1.speed
      = max 0 (TrainSimulation.reset.speed + 0.7 * 1) ∧
    (TrainSimulation.reset.update cvW 1 (some 0.7)).1.status = TrainSimulation.reset.status ∧
    (∀ f g, TrainSimulation.reset.update
        { cvW with traction_acc_interp := f, brake_acc_interp := g } 1 (some 0.7)
      = TrainSimulation.reset.update cvW 1 (some 0.7)) :=
  auto_mode_bypass cvW TrainSimulation.reset 1 0.7 80 rfl
    (by norm_num [TrainSimulation.reset]) (Or.inr (Or.inl rfl))
    (by norm_num [TrainSimulation.reset])
    (by
      intro hx
      rw [show TrainSimulation.reset.check_station_stop = false from by
        norm_num [TrainSimulation.check_station_stop, TrainSimulation.reset]] at hx
      cases hx)

